import Mathlib

/-
Verification development for the TrackHubGenerator pipeline
(src/bin/TrackHubGenerator.py).  The Python data model and the pure parts of
its operations are shallowly embedded below: strings are Lean Strings,
Python dicts are insertion-ordered association lists, optional regex rules
are abstract matching functions, and json.loads is modelled by a small
executable parser for the JSON grammar (integer numerals; the script never
feeds it floats).
-/

/-- JSON values as produced by json.loads: objects are insertion-ordered
association lists, numbers are modelled by the integer fragment. -/
inductive Json where
  | null : Json
  | bool (b : Bool) : Json
  | num (n : Int) : Json
  | str (s : String) : Json
  | arr (xs : List Json) : Json
  | obj (fields : List (String × Json)) : Json

/-- Whether a JSON value is an object, i.e. a Python mapping. -/
def Json.isObj : Json → Bool
  | Json.obj _ => true
  | _ => false

/-- Python dict assignment d[k] = v on an insertion-ordered association
list: an existing key keeps its position and gets the new value, a new key
is appended at the end. -/
def dictInsert (m : List (String × Json)) (k : String) (v : Json) : List (String × Json) :=
  match m with
  | [] => [(k, v)]
  | (k1, v1) :: rest => if k1 = k then (k, v) :: rest else (k1, v1) :: dictInsert rest k v

/-- Python dict membership test `k in m`. -/
def hasKey (m : List (String × Json)) (k : String) : Bool :=
  m.any (fun kv => kv.1 == k)

/-- Python d.update(e): assign every entry of e into d in order. -/
def pyDictUpdate (d e : List (String × Json)) : List (String × Json) :=
  e.foldl (fun acc kv => dictInsert acc kv.1 kv.2) d

/-- JSON insignificant whitespace. -/
def jsonWs (c : Char) : Bool :=
  (c == ' ') || (c == '\t') || (c == '\n') || (c == '\r')

/-- Single-character JSON string escapes (the \uXXXX form is not needed by
this repository's inputs and makes the parse fail). -/
def escChar (c : Char) : Option Char :=
  if c = '"' then some '"'
  else if c = '\\' then some '\\'
  else if c = '/' then some '/'
  else if c = 'n' then some '\n'
  else if c = 't' then some '\t'
  else if c = 'r' then some '\r'
  else if c = 'b' then some (Char.ofNat 8)
  else if c = 'f' then some (Char.ofNat 12)
  else none

/-- Parse the body of a JSON string after the opening quote, accumulating
characters in reverse. -/
def parseStrBodyAux : List Char → List Char → Option (String × List Char)
  | _, [] => none
  | acc, c :: rest =>
    if c = '"' then some (String.mk acc.reverse, rest)
    else if c = '\\' then
      match rest with
      | [] => none
      | e :: rest1 =>
        match escChar e with
        | some ec => parseStrBodyAux (ec :: acc) rest1
        | none => none
    else parseStrBodyAux (c :: acc) rest

/-- Parse a JSON string body starting just after the opening quote. -/
def parseStrBody (cs : List Char) : Option (String × List Char) :=
  parseStrBodyAux [] cs

/-- Numeric value of a list of decimal digits. -/
def digitsToNat (ds : List Char) : Nat :=
  ds.foldl (fun n c => n * 10 + (c.toNat - 48)) 0

/-- Parse a JSON natural numeral; a following fraction or exponent marker is
outside the modelled integer fragment and fails. -/
def parseNatFrom (cs : List Char) : Option (Nat × List Char) :=
  let ds := cs.takeWhile Char.isDigit
  let rest := cs.dropWhile Char.isDigit
  if ds = [] then none
  else
    match rest with
    | [] => some (digitsToNat ds, rest)
    | c :: _ => if c = '.' || c = 'e' || c = 'E' then none else some (digitsToNat ds, rest)

/-- Parse a JSON integer numeral with optional leading minus. -/
def parseIntFrom (cs : List Char) : Option (Json × List Char) :=
  match cs with
  | '-' :: rest => (parseNatFrom rest).map (fun p => (Json.num (-(p.1 : Int)), p.2))
  | _ => (parseNatFrom cs).map (fun p => (Json.num (p.1 : Int), p.2))

/-- Recursive-descent parser state: a value, or the inside of an array or
object with the fields accumulated so far. -/
inductive PState where
  | pvalue : PState
  | parrFirst : PState
  | parrRest (acc : List Json) : PState
  | pobjFirst : PState
  | pobjRest (acc : List (String × Json)) : PState

/-- Fuel-indexed recursive-descent parser for JSON values; duplicate object
keys behave like repeated Python dict assignment (first position, last
value). -/
def parseStep : Nat → PState → List Char → Option (Json × List Char)
  | 0, _, _ => none
  | Nat.succ fuel, PState.pvalue, cs =>
    match cs.dropWhile jsonWs with
    | [] => none
    | c :: rest =>
      if c = 'n' then
        if rest.take 3 = ['u', 'l', 'l'] then some (Json.null, rest.drop 3) else none
      else if c = 't' then
        if rest.take 3 = ['r', 'u', 'e'] then some (Json.bool true, rest.drop 3) else none
      else if c = 'f' then
        if rest.take 4 = ['a', 'l', 's', 'e'] then some (Json.bool false, rest.drop 4) else none
      else if c = '"' then
        (parseStrBody rest).map (fun p => (Json.str p.1, p.2))
      else if c = '[' then parseStep fuel PState.parrFirst rest
      else if c = '{' then parseStep fuel PState.pobjFirst rest
      else if c = '-' || c.isDigit then parseIntFrom (c :: rest)
      else none
  | Nat.succ fuel, PState.parrFirst, cs =>
    match cs.dropWhile jsonWs with
    | ']' :: rest => some (Json.arr [], rest)
    | cs1 =>
      match parseStep fuel PState.pvalue cs1 with
      | some (v, rest) => parseStep fuel (PState.parrRest [v]) rest
      | none => none
  | Nat.succ fuel, PState.parrRest acc, cs =>
    match cs.dropWhile jsonWs with
    | ']' :: rest => some (Json.arr acc, rest)
    | ',' :: rest =>
      match parseStep fuel PState.pvalue rest with
      | some (v, rest1) => parseStep fuel (PState.parrRest (acc ++ [v])) rest1
      | none => none
    | _ => none
  | Nat.succ fuel, PState.pobjFirst, cs =>
    match cs.dropWhile jsonWs with
    | '}' :: rest => some (Json.obj [], rest)
    | '"' :: rest =>
      match parseStrBody rest with
      | some (k, rest1) =>
        match rest1.dropWhile jsonWs with
        | ':' :: rest2 =>
          match parseStep fuel PState.pvalue rest2 with
          | some (v, rest3) => parseStep fuel (PState.pobjRest (dictInsert [] k v)) rest3
          | none => none
        | _ => none
      | none => none
    | _ => none
  | Nat.succ fuel, PState.pobjRest acc, cs =>
    match cs.dropWhile jsonWs with
    | '}' :: rest => some (Json.obj acc, rest)
    | ',' :: rest =>
      match rest.dropWhile jsonWs with
      | '"' :: rest0 =>
        match parseStrBody rest0 with
        | some (k, rest1) =>
          match rest1.dropWhile jsonWs with
          | ':' :: rest2 =>
            match parseStep fuel PState.pvalue rest2 with
            | some (v, rest3) => parseStep fuel (PState.pobjRest (dictInsert acc k v)) rest3
            | none => none
          | _ => none
        | none => none
      | _ => none
    | _ => none

/-- Model of json.loads: parse one JSON document and require that only
whitespace remains. -/
def parseJson (s : String) : Option Json :=
  match parseStep (4 * s.toList.length + 4) PState.pvalue s.toList with
  | some (j, rest) => if rest.dropWhile jsonWs = [] then some j else none
  | none => none

/-- Python os.path.basename: the part of the path after the last slash. -/
def pyBasename (s : String) : String :=
  String.mk ((s.toList.reverse.takeWhile (fun c => !(c == '/'))).reverse)

/-- Python os.path.splitext root: drop the extension after the last dot,
unless every character before that dot is itself a dot (hidden files such
as ".bb" keep their full name). -/
def splitextRoot (s : String) : String :=
  let rev := s.toList.reverse
  let after := rev.takeWhile (fun c => !(c == '.'))
  if after.length = rev.length then s
  else
    let beforeRev := rev.drop (after.length + 1)
    if beforeRev.all (fun c => c == '.') then s
    else String.mk beforeRev.reverse

/-- Python str.split(sep) for a one-character separator: no collapsing of
adjacent separators, and the empty string splits to one empty token. -/
def pySplitList (sep : Char) : List Char → List (List Char)
  | [] => [[]]
  | c :: cs =>
    if c = sep then [] :: pySplitList sep cs
    else
      match pySplitList sep cs with
      | [] => [[c]]
      | t :: ts => (c :: t) :: ts

/-- Default sample-id rule: basename.split(".")[0].split("_")[0]. -/
def defaultSampleId (basename : String) : String :=
  String.mk ((pySplitList '_' ((pySplitList '.' basename.toList).headD [])).headD [])

/-- Default annotation-type rule: the second underscore token of the
extension-stripped base name when it exists, else the literal "default". -/
def defaultAnnotationType (basename : String) : String :=
  let parts := pySplitList '_' basename.toList
  if parts.length > 1 then String.mk (parts.getD 1 []) else "default"

/-- An extraction rule abstracts re search plus named-group lookup: the
result is the captured text when the rule matches with its group, and none
when the rule is absent, fails to match, or lacks the group. -/
def patApply (pattern : Option (String → Option String)) (s : String) : Option String :=
  match pattern with
  | some p => p s
  | none => none

/-- TrackFile._extract_sample_id: the rule result on the filename, falling
back to the default rule on the extension-stripped base name. -/
def extract_sample_id (filename basename : String)
    (pattern : Option (String → Option String)) : String :=
  match patApply pattern filename with
  | some v => v
  | none => defaultSampleId basename

/-- TrackFile._extract_annotation_type: the rule result on the filename,
falling back to the default rule on the extension-stripped base name. -/
def extract_annotation_type (filename basename : String)
    (pattern : Option (String → Option String)) : String :=
  match patApply pattern filename with
  | some v => v
  | none => defaultAnnotationType basename

/-- Python str.lower for the ASCII inputs used by the script. -/
def pyLower (s : String) : String :=
  String.mk (s.toList.map Char.toLower)

/-- Track descriptor with extracted identity and display attributes,
mirroring the fields set by TrackFile.__init__. -/
structure TrackFile where
  file_path : String
  track_type : String
  filename : String
  basename : String
  sample_id : String
  annotation_type : String
  short_label : String
  long_label : String
  color : String
  visibility : String
  priority : String
  additional_params : List (String × Json)

/-- TrackFile.__init__: derive filename, base name, sample id and (for
bigbed) annotation type, and set the default display attributes. -/
def mkTrackFile (file_path track_type : String)
    (sample_pattern annotation_pattern : Option (String → Option String)) : TrackFile :=
  let tt := pyLower track_type
  let filename := pyBasename file_path
  let basename := splitextRoot filename
  { file_path := file_path
    track_type := tt
    filename := filename
    basename := basename
    sample_id := extract_sample_id filename basename sample_pattern
    annotation_type :=
      if tt = "bigbed" then extract_annotation_type filename basename annotation_pattern else ""
    short_label := basename
    long_label := basename
    color := ""
    visibility := ""
    priority := "1"
    additional_params := [] }

/-- Sample metadata from one sample-sheet row.  additional_params holds the
raw json.loads result, as the Python attribute does. -/
structure SampleMetadata where
  sample_id : String
  short_label : String
  long_label : String
  color : String
  visibility : String
  priority : String
  additional_params : Json

/-- SampleMetadata.__init__ from a row modelled as an association list of
present columns: absent optional columns take their defaults, non-empty
additional_params text is handed to json.loads and a parse failure keeps
the empty mapping. -/
def SampleMetadata.ofRow (row : List (String × String)) : SampleMetadata :=
  let sid := (List.lookup "sample_id" row).getD ""
  { sample_id := sid
    short_label := (List.lookup "short_label" row).getD sid
    long_label := (List.lookup "long_label" row).getD sid
    color := (List.lookup "color" row).getD ""
    visibility := (List.lookup "visibility" row).getD ""
    priority := (List.lookup "priority" row).getD "1"
    additional_params :=
      match List.lookup "additional_params" row with
      | some s =>
        if s = "" then Json.obj []
        else
          match parseJson s with
          | some j => j
          | none => Json.obj []
      | none => Json.obj [] }

/-- TrackFile.apply_metadata: labels are overwritten unconditionally, color,
visibility and priority only when currently empty and the sheet value is
non-empty, and additional_params are dict-updated.  Python raises a
TypeError when the sheet's additional_params is not a mapping; that aborted
run is modelled by none. -/
def TrackFile.apply_metadata (tf : TrackFile) (md : SampleMetadata) : Option TrackFile :=
  match md.additional_params with
  | Json.obj fs =>
    some { tf with
      short_label := md.short_label
      long_label := md.long_label
      color := if tf.color = "" ∧ md.color ≠ "" then md.color else tf.color
      visibility := if tf.visibility = "" ∧ md.visibility ≠ "" then md.visibility else tf.visibility
      priority := if tf.priority = "" ∧ md.priority ≠ "" then md.priority else tf.priority
      additional_params := pyDictUpdate tf.additional_params fs }
  | _ => none

/-- One iteration of apply_sample_metadata: a descriptor whose sample id has
a metadata entry is merged, otherwise it is kept unchanged (only a warning
is logged). -/
def apply_one_metadata (meta : List (String × SampleMetadata)) (tf : TrackFile) :
    Option TrackFile :=
  match List.lookup tf.sample_id meta with
  | some md => tf.apply_metadata md
  | none => some tf

/-- apply_sample_metadata over a descriptor list. -/
def apply_sample_metadata (tfs : List TrackFile) (meta : List (String × SampleMetadata)) :
    Option (List TrackFile) :=
  tfs.mapM (apply_one_metadata meta)

/-- Defaulting assignment for color inside get_track_params: empty color
becomes the kind-specific default. -/
def defaultedColor (tf : TrackFile) : String :=
  if tf.color = "" then (if tf.track_type = "bigwig" then "0,0,100" else "0,100,0") else tf.color

/-- Defaulting assignment for visibility inside get_track_params: empty
visibility becomes the kind-specific default. -/
def defaultedVisibility (tf : TrackFile) : String :=
  if tf.visibility = "" then (if tf.track_type = "bigwig" then "full" else "pack") else tf.visibility

/-- Base track_params dict of get_track_params, built after the defaulting
assignments have run. -/
def trackParamsBase (tf : TrackFile) : List (String × Json) :=
  [("name", Json.str (tf.track_type ++ "_" ++ tf.basename)),
   ("source", Json.str tf.file_path),
   ("visibility", Json.str (defaultedVisibility tf)),
   ("tracktype", Json.str
     (if tf.track_type = "bigwig" then "bigWig"
      else if tf.track_type = "bigbed" then "bigBed"
      else tf.track_type)),
   ("short_label", Json.str tf.short_label),
   ("long_label", Json.str tf.long_label),
   ("color", Json.str (defaultedColor tf)),
   ("priority", Json.str tf.priority)]

/-- Optional parent entry of get_track_params. -/
def trackParamsWithParent (ps : List (String × Json)) (parent : Option Json) :
    List (String × Json) :=
  match parent with
  | some p => dictInsert ps "parent" p
  | none => ps

/-- Signal-type defaults of get_track_params: autoScale and alwaysZero are
injected only for keys absent from additional_params (the two-entry
type_defaults loop of the source, unrolled). -/
def trackParamsWithDefaults (tf : TrackFile) (ps : List (String × Json)) :
    List (String × Json) :=
  if tf.track_type = "bigwig" then
    let ps1 := if hasKey tf.additional_params "autoScale" then ps
               else dictInsert ps "autoScale" (Json.str "on")
    if hasKey tf.additional_params "alwaysZero" then ps1
    else dictInsert ps1 "alwaysZero" (Json.str "on")
  else ps

/-- Ensembl-specific type and format fields of get_track_params. -/
def trackParamsWithEnsembl (tf : TrackFile) (ps : List (String × Json)) (ens : Bool) :
    List (String × Json) :=
  if ens then
    if tf.track_type = "bigwig" then
      dictInsert (dictInsert ps "type" (Json.str "bigWig")) "format" (Json.str "bigWig")
    else if tf.track_type = "bigbed" then
      dictInsert (dictInsert ps "type" (Json.str "bigBed")) "format" (Json.str "bigBed")
    else ps
  else ps

/-- TrackFile.get_track_params: returns the descriptor as mutated by the
defaulting assignments together with the built parameter dict, which is
assembled in source order: base fields, parent, signal-type defaults,
Ensembl fields, and finally every additional_params entry. -/
def TrackFile.get_track_params (tf : TrackFile) (parent : Option Json)
    (ensembl_compatible : Bool) : TrackFile × List (String × Json) :=
  ({ tf with color := defaultedColor tf, visibility := defaultedVisibility tf },
   tf.additional_params.foldl (fun acc kv => dictInsert acc kv.1 kv.2)
     (trackParamsWithEnsembl tf
       (trackParamsWithDefaults tf
         (trackParamsWithParent (trackParamsBase tf) parent)) ensembl_compatible))

/-- Python dict-of-lists insertion used by both grouping functions: append
to the bucket of an existing key, or append a new singleton bucket. -/
def bucketInsert {α : Type} : List (String × List α) → String → α → List (String × List α)
  | [], k, x => [(k, [x])]
  | (k1, v) :: rest, k, x =>
    if k1 = k then (k1, v ++ [x]) :: rest else (k1, v) :: bucketInsert rest k x

/-- Shared loop shape of the two grouping functions. -/
def groupByKey {α : Type} (key : α → String) (l : List α) : List (String × List α) :=
  l.foldl (fun g x => bucketInsert g (key x) x) []

/-- Concatenate all buckets of a grouping in key-encounter order. -/
def flattenGroups {α : Type} (g : List (String × List α)) : List α :=
  (g.map Prod.snd).flatten

/-- group_track_files_by_sample. -/
def group_track_files_by_sample (l : List TrackFile) : List (String × List TrackFile) :=
  groupByKey (fun tf => tf.sample_id) l

/-- group_bigbed_files_by_annotation: an empty annotation type falls back to
the key "default". -/
def group_bigbed_files_by_annotation (l : List TrackFile) : List (String × List TrackFile) :=
  groupByKey (fun tf => if tf.annotation_type = "" then "default" else tf.annotation_type) l

/-- Python str.startswith. -/
def pyStartsWith (s pre : String) : Bool :=
  pre.toList.isPrefixOf s.toList

/-- Python str.replace: non-overlapping left-to-right replacement of every
occurrence; the fuel is the length of the subject, which one-step-per-
character consumption never exhausts. -/
def pyReplaceAux : Nat → List Char → List Char → List Char → List Char
  | 0, s, _, _ => s
  | Nat.succ fuel, s, old, new =>
    match s with
    | [] => []
    | c :: rest =>
      if !old.isEmpty && old.isPrefixOf s then
        new ++ pyReplaceAux fuel (s.drop old.length) old new
      else c :: pyReplaceAux fuel rest old new

/-- Python str.replace on Strings. -/
def pyReplace (s old new : String) : String :=
  String.mk (pyReplaceAux s.toList.length s.toList old.toList new.toList)

/-- Genome-name translation shared by create_data_hub, create_annotation_hub
and create_unified_hub: only in Ensembl-compatible mode and only for
identifiers starting with "hg", substitute hg38 with GRCh38 and hg19 with
GRCh37. -/
def translateGenomeName (ensembl_compatible : Bool) (genome : String) : String :=
  if ensembl_compatible && pyStartsWith genome "hg" then
    pyReplace (pyReplace genome "hg38" "GRCh38") "hg19" "GRCh37"
  else genome

theorem lookup_cons_pair (a k : String) (v : Json) (l : List (String × Json)) :
    List.lookup a ((k, v) :: l) = if a = k then some v else List.lookup a l := by
  by_cases h : a = k
  · simp [List.lookup, h]
  · rw [if_neg h]
    simp only [List.lookup, beq_eq_false_iff_ne.mpr h]

theorem lookup_dictInsert_self (m : List (String × Json)) (k : String) (v : Json) :
    List.lookup k (dictInsert m k v) = some v := by
  induction m with
  | nil => simp [dictInsert, lookup_cons_pair]
  | cons kv rest ih =>
    obtain ⟨k1, v1⟩ := kv
    by_cases h : k1 = k
    · simp [dictInsert, h, lookup_cons_pair]
    · have h2 : ¬ k = k1 := fun e => h e.symm
      simp [dictInsert, h, lookup_cons_pair, h2, ih]

theorem lookup_dictInsert_ne (m : List (String × Json)) (k k1 : String) (v : Json)
    (h : k ≠ k1) : List.lookup k (dictInsert m k1 v) = List.lookup k m := by
  induction m with
  | nil => simp [dictInsert, lookup_cons_pair, h]
  | cons kv rest ih =>
    obtain ⟨k2, v2⟩ := kv
    by_cases h2 : k2 = k1
    · subst h2
      simp [dictInsert, lookup_cons_pair, h]
    · simp [dictInsert, h2, lookup_cons_pair, ih]

theorem lookup_foldl_dictInsert_of_notin :
    ∀ (e : List (String × Json)) (m : List (String × Json)) (k : String),
      (∀ kv ∈ e, kv.1 ≠ k) →
      List.lookup k (e.foldl (fun acc kv => dictInsert acc kv.1 kv.2) m) = List.lookup k m := by
  intro e
  induction e with
  | nil => intro m k _; rfl
  | cons kv rest ih =>
    intro m k h
    rw [List.foldl_cons, ih _ k (fun x hx => h x (List.mem_cons_of_mem _ hx)),
      lookup_dictInsert_ne _ _ _ _ (fun e => (h kv (List.mem_cons_self _ _)) e.symm)]

theorem lookup_eq_none_forall {e : List (String × Json)} {k : String}
    (h : List.lookup k e = none) : ∀ kv ∈ e, kv.1 ≠ k := by
  induction e with
  | nil => intro kv hkv; cases hkv
  | cons kv2 rest ih =>
    obtain ⟨k2, v2⟩ := kv2
    rw [lookup_cons_pair] at h
    by_cases h2 : k = k2
    · rw [if_pos h2] at h; cases h
    · rw [if_neg h2] at h
      intro kv hkv
      rcases List.mem_cons.mp hkv with h3 | h3
      · subst h3; exact fun e => h2 e.symm
      · exact ih h kv h3

theorem lookup_foldl_dictInsert_of_lookup :
    ∀ (e : List (String × Json)) (m : List (String × Json)) (k : String) (v : Json),
      (e.map Prod.fst).Nodup → List.lookup k e = some v →
      List.lookup k (e.foldl (fun acc kv => dictInsert acc kv.1 kv.2) m) = some v := by
  intro e
  induction e with
  | nil => intro m k v _ h; cases h
  | cons kv rest ih =>
    intro m k v hnd h
    obtain ⟨k1, v1⟩ := kv
    rw [List.map_cons, List.nodup_cons] at hnd
    rw [lookup_cons_pair] at h
    rw [List.foldl_cons]
    by_cases hk : k = k1
    · rw [if_pos hk] at h
      injection h with hv
      subst hv
      rw [lookup_foldl_dictInsert_of_notin rest (dictInsert m k1 v1) k
        (by
          intro kv hkv heq
          have hm : kv.1 ∈ List.map Prod.fst rest := List.mem_map_of_mem Prod.fst hkv
          rw [heq, hk] at hm
          exact hnd.1 hm)]
      rw [hk]
      exact lookup_dictInsert_self m k1 v1
    · rw [if_neg hk] at h
      exact ih _ k v hnd.2 h

theorem hasKey_eq_false_of_lookup_none {e : List (String × Json)} {k : String}
    (h : List.lookup k e = none) : hasKey e k = false := by
  have h2 := lookup_eq_none_forall h
  unfold hasKey
  rw [List.any_eq_false]
  intro kv hkv
  simp only [beq_iff_eq]
  exact h2 kv hkv

theorem pySplitList_ne_nil (sep : Char) (cs : List Char) : pySplitList sep cs ≠ [] := by
  induction cs with
  | nil => simp [pySplitList]
  | cons c cs ih =>
    by_cases h : c = sep
    · simp [pySplitList, h]
    · simp only [pySplitList, if_neg h]
      cases hs : pySplitList sep cs with
      | nil => simp
      | cons t ts => simp

theorem pySplitList_headD_cons (sep c : Char) (cs : List Char) (h : ¬ c = sep) :
    (pySplitList sep (c :: cs)).headD [] = c :: (pySplitList sep cs).headD [] := by
  simp only [pySplitList, if_neg h]
  cases hs : pySplitList sep cs with
  | nil => exact absurd hs (pySplitList_ne_nil sep cs)
  | cons t ts => simp

theorem flatten_bucketInsert {α : Type} (g : List (String × List α)) (k : String) (x : α) :
    (flattenGroups (bucketInsert g k x)).Perm (x :: flattenGroups g) := by
  induction g with
  | nil => simp [bucketInsert, flattenGroups]
  | cons p rest ih =>
    obtain ⟨k1, v⟩ := p
    by_cases h : k1 = k
    · simp only [bucketInsert, if_pos h, flattenGroups, List.map_cons, List.flatten_cons]
      rw [List.append_assoc]
      exact List.perm_middle
    · simp only [bucketInsert, if_neg h, flattenGroups, List.map_cons, List.flatten_cons]
      exact (List.Perm.append_left v ih).trans List.perm_middle

theorem flatten_groupByKey_perm {α : Type} (key : α → String) :
    ∀ (l : List α) (g : List (String × List α)),
      (flattenGroups (l.foldl (fun g x => bucketInsert g (key x) x) g)).Perm
        (l ++ flattenGroups g) := by
  intro l
  induction l with
  | nil => intro g; simp
  | cons x l ih =>
    intro g
    rw [List.foldl_cons]
    exact ((ih _).trans
      ((List.Perm.append_left l (flatten_bucketInsert g (key x) x)).trans List.perm_middle))

/-- C1: with no configured extraction rules, the file
"SampleA_macs2peaks.narrowPeak.bb" does NOT resolve to annotation_type
"macs2peaks": splitext strips only the final ".bb", so the second
underscore token keeps its inner ".narrowPeak" part.  This refutes the
claim at its own concrete input. -/
theorem extraction_sampleA_claim_false :
    ¬ ((mkTrackFile "SampleA_macs2peaks.narrowPeak.bb" "bigbed" none none).sample_id = "SampleA"
      ∧ (mkTrackFile "SampleA_macs2peaks.narrowPeak.bb" "bigbed" none none).annotation_type
          = "macs2peaks") := by
  decide

/-- C1 (amended): with no configured extraction rules, the annotation-kind
file "SampleA_macs2peaks.narrowPeak.bb" yields sample_id "SampleA" and
annotation_type "macs2peaks.narrowPeak" (the second underscore token of the
base name with only the final extension stripped). -/
theorem extraction_sampleA_amended :
    (mkTrackFile "SampleA_macs2peaks.narrowPeak.bb" "bigbed" none none).sample_id = "SampleA"
    ∧ (mkTrackFile "SampleA_macs2peaks.narrowPeak.bb" "bigbed" none none).annotation_type
        = "macs2peaks.narrowPeak" :=
  ⟨rfl, rfl⟩

/-- C2: the claim that sample_id is always non-empty fails at the concrete
file path ".bb": splitext keeps the hidden-file name whole, and the default
rule takes the (empty) prefix before the first dot. -/
theorem sample_id_empty_for_hidden_file :
    (mkTrackFile ".bb" "bigbed" none none).sample_id = "" :=
  rfl

/-- C2 (amended): when the supplied sample-id rule is absent or fails to
match (or lacks its named group), the deterministic fallback rule produces
sample_id, and the result is non-empty whenever the extension-stripped
filename is non-empty and starts with neither a dot nor an underscore. -/
theorem sample_id_fallback_characterization (fp tt : String)
    (sp ap : Option (String → Option String))
    (hfb : patApply sp (pyBasename fp) = none)
    (hne : (splitextRoot (pyBasename fp)).toList ≠ [])
    (hdot : (splitextRoot (pyBasename fp)).toList.head? ≠ some '.')
    (hund : (splitextRoot (pyBasename fp)).toList.head? ≠ some '_') :
    (mkTrackFile fp tt sp ap).sample_id = defaultSampleId (splitextRoot (pyBasename fp))
    ∧ (mkTrackFile fp tt sp ap).sample_id ≠ "" := by
  have hsid : (mkTrackFile fp tt sp ap).sample_id
      = defaultSampleId (splitextRoot (pyBasename fp)) := by
    simp [mkTrackFile, extract_sample_id, hfb]
  refine ⟨hsid, ?_⟩
  rw [hsid]
  cases hcs : (splitextRoot (pyBasename fp)).toList with
  | nil => exact absurd hcs hne
  | cons c cs =>
    have hc1 : ¬ c = '.' := by
      intro h; rw [hcs] at hdot; simp [h] at hdot
    have hc2 : ¬ c = '_' := by
      intro h; rw [hcs] at hund; simp [h] at hund
    unfold defaultSampleId
    rw [hcs, pySplitList_headD_cons '.' c cs hc1, pySplitList_headD_cons '_' c _ hc2]
    intro h
    have h2 := congrArg String.data h
    simp at h2

/-- C2 (witness): the fallback on "SampleB_r1.bw" with no rule yields the
non-empty sample id. -/
theorem sample_id_fallback_characterization_witness :
    (mkTrackFile "SampleB_r1.bw" "bigwig" none none).sample_id
        = defaultSampleId (splitextRoot (pyBasename "SampleB_r1.bw"))
    ∧ (mkTrackFile "SampleB_r1.bw" "bigwig" none none).sample_id ≠ "" :=
  sample_id_fallback_characterization "SampleB_r1.bw" "bigwig" none none rfl
    (by decide) (by decide) (by decide)

/-- C4: a descriptor built by the extractor has the non-empty default
priority "1", so the priority-overwrite branch of the merge never fires:
whenever apply_metadata produces a descriptor, its priority is the
construction-time priority. -/
theorem apply_metadata_keeps_initial_priority (fp tt : String)
    (sp ap : Option (String → Option String)) (md : SampleMetadata) :
    ((mkTrackFile fp tt sp ap).apply_metadata md).map TrackFile.priority
      = ((mkTrackFile fp tt sp ap).apply_metadata md).map
          (fun _ => (mkTrackFile fp tt sp ap).priority) := by
  cases h : md.additional_params <;>
    simp [TrackFile.apply_metadata, h, mkTrackFile]

/-- C8: in Ensembl-compatible mode the genome identifier hg38 translates to
GRCh38 and hg19 to GRCh37, identifiers outside the hg family such as mm10
pass through unchanged, and in native mode no identifier is translated. -/
theorem genome_name_translation :
    translateGenomeName true "hg38" = "GRCh38"
    ∧ translateGenomeName true "hg19" = "GRCh37"
    ∧ translateGenomeName true "mm10" = "mm10"
    ∧ ∀ g, translateGenomeName false g = g :=
  ⟨rfl, rfl, rfl, fun _ => rfl⟩

/-- C9: the claim that additional_params is always a valid mapping fails:
json.loads accepts any JSON document, so the sheet text "[1, 2]" parses
successfully and the row stores a JSON array, not a mapping, contradicting
the declared Dict type and the invariant. -/
theorem sample_metadata_array_additional_params :
    (SampleMetadata.ofRow [("sample_id", "S1"), ("additional_params", "[1, 2]")]).additional_params
        = Json.arr [Json.num 1, Json.num 2]
    ∧ Json.isObj (SampleMetadata.ofRow
        [("sample_id", "S1"), ("additional_params", "[1, 2]")]).additional_params = false :=
  ⟨rfl, rfl⟩

/-- C10: flattening the groups produced by either grouping strategy (by
sample id, or by annotation type with empty types bucketed under "default")
is a permutation of the input descriptor list, hence reproduces the original
multiset of descriptors and of their file paths, duplicates included. -/
theorem grouping_flatten_multiset (l : List TrackFile) :
    (flattenGroups (group_track_files_by_sample l)).Perm l
    ∧ (flattenGroups ( group_bigbed_files_by_annotation l)).Perm l
    ∧ ((flattenGroups (group_track_files_by_sample l)).map TrackFile.file_path).Perm
        (l.map TrackFile.file_path) := by
  have h1 : (flattenGroups (group_track_files_by_sample l)).Perm l := by
    have h := flatten_groupByKey_perm (fun tf : TrackFile => tf.sample_id) l []
    simpa [group_track_files_by_sample, groupByKey, flattenGroups] using h
  have h2 : (flattenGroups ( group_bigbed_files_by_annotation l)).Perm l := by
    have h := flatten_groupByKey_perm
      (fun tf : TrackFile => if tf.annotation_type = "" then "default" else tf.annotation_type) l []
    simpa [ group_bigbed_files_by_annotation, groupByKey, flattenGroups] using h
  exact ⟨h1, h2, h1.map TrackFile.file_path⟩

theorem lookup_trackParamsWithParent_ne (ps : List (String × Json)) (parent : Option Json)
    (k : String) (h : k ≠ "parent") :
    List.lookup k (trackParamsWithParent ps parent) = List.lookup k ps := by
  cases parent with
  | none => rfl
  | some p => exact lookup_dictInsert_ne ps k "parent" p h

theorem lookup_trackParamsWithDefaults_ne (tf : TrackFile) (ps : List (String × Json))
    (k : String) (h1 : k ≠ "autoScale") (h2 : k ≠ "alwaysZero") :
    List.lookup k (trackParamsWithDefaults tf ps) = List.lookup k ps := by
  unfold trackParamsWithDefaults
  by_cases hw : tf.track_type = "bigwig"
  · rw [if_pos hw]
    cases ha : hasKey tf.additional_params "autoScale" <;>
      cases hz : hasKey tf.additional_params "alwaysZero" <;>
        simp only [Bool.false_eq_true, if_false, if_true, reduceCtorEq]
    · rw [lookup_dictInsert_ne _ _ _ _ h2, lookup_dictInsert_ne _ _ _ _ h1]
    · rw [lookup_dictInsert_ne _ _ _ _ h1]
    · rw [lookup_dictInsert_ne _ _ _ _ h2]
  · rw [if_neg hw]

theorem lookup_trackParamsWithEnsembl_ne (tf : TrackFile) (ps : List (String × Json))
    (ens : Bool) (k : String) (h1 : k ≠ "type") (h2 : k ≠ "format") :
    List.lookup k (trackParamsWithEnsembl tf ps ens) = List.lookup k ps := by
  unfold trackParamsWithEnsembl
  cases ens
  · simp only [Bool.false_eq_true, if_false]
  · simp only [if_true]
    by_cases hw : tf.track_type = "bigwig"
    · rw [if_pos hw, lookup_dictInsert_ne _ _ _ _ h2, lookup_dictInsert_ne _ _ _ _ h1]
    · rw [if_neg hw]
      by_cases hb : tf.track_type = "bigbed"
      · rw [if_pos hb, lookup_dictInsert_ne _ _ _ _ h2, lookup_dictInsert_ne _ _ _ _ h1]
      · rw [if_neg hb]

theorem lookup_trackParamsWithDefaults_autoScale (tf : TrackFile) (ps : List (String × Json))
    (hw : tf.track_type = "bigwig") (h : hasKey tf.additional_params "autoScale" = false) :
    List.lookup "autoScale" (trackParamsWithDefaults tf ps) = some (Json.str "on") := by
  unfold trackParamsWithDefaults
  rw [if_pos hw]
  cases hz : hasKey tf.additional_params "alwaysZero" <;>
    simp only [h, hz, Bool.false_eq_true, if_false, if_true, reduceCtorEq]
  · rw [lookup_dictInsert_ne _ _ _ _ (by decide)]
    exact lookup_dictInsert_self _ _ _
  · exact lookup_dictInsert_self _ _ _

theorem lookup_trackParamsWithDefaults_alwaysZero (tf : TrackFile) (ps : List (String × Json))
    (hw : tf.track_type = "bigwig") (h : hasKey tf.additional_params "alwaysZero" = false) :
    List.lookup "alwaysZero" (trackParamsWithDefaults tf ps) = some (Json.str "on") := by
  unfold trackParamsWithDefaults
  rw [if_pos hw]
  cases ha : hasKey tf.additional_params "autoScale" <;>
    simp only [h, ha, Bool.false_eq_true, if_false, if_true, reduceCtorEq] <;>
    exact lookup_dictInsert_self _ _ _

theorem lookup_trackParamsBase_color (tf : TrackFile) :
    List.lookup "color" (trackParamsBase tf) = some (Json.str (defaultedColor tf)) :=
  rfl

theorem lookup_trackParamsBase_visibility (tf : TrackFile) :
    List.lookup "visibility" (trackParamsBase tf) = some (Json.str (defaultedVisibility tf)) :=
  rfl

/-- C3: the claim that get_track_params leaves every descriptor field
unchanged is false: projecting a signal descriptor whose color is still
empty writes the default color "0,0,100" back into the descriptor. -/
theorem get_track_params_mutates_descriptor :
    ((mkTrackFile "S1_a.bw" "bigwig" none none).get_track_params none false).1.color
      ≠ (mkTrackFile "S1_a.bw" "bigwig" none none).color := by
  decide

/-- C3 (amended): get_track_params leaves every descriptor field unchanged
except color and visibility, which it overwrites with the kind-specific
defaults exactly when they are empty and keeps otherwise, in both
compatibility modes and with or without a parent. -/
theorem get_track_params_frame (tf : TrackFile) (parent : Option Json) (ens : Bool) :
    (tf.get_track_params parent ens).1.file_path = tf.file_path
    ∧ (tf.get_track_params parent ens).1.track_type = tf.track_type
    ∧ (tf.get_track_params parent ens).1.filename = tf.filename
    ∧ (tf.get_track_params parent ens).1.basename = tf.basename
    ∧ (tf.get_track_params parent ens).1.sample_id = tf.sample_id
    ∧ (tf.get_track_params parent ens).1.annotation_type = tf.annotation_type
    ∧ (tf.get_track_params parent ens).1.short_label = tf.short_label
    ∧ (tf.get_track_params parent ens).1.long_label = tf.long_label
    ∧ (tf.get_track_params parent ens).1.priority = tf.priority
    ∧ (tf.get_track_params parent ens).1.additional_params = tf.additional_params
    ∧ (tf.get_track_params parent ens).1.color
        = (if tf.color = "" then (if tf.track_type = "bigwig" then "0,0,100" else "0,100,0")
           else tf.color)
    ∧ (tf.get_track_params parent ens).1.visibility
        = (if tf.visibility = "" then (if tf.track_type = "bigwig" then "full" else "pack")
           else tf.visibility) :=
  ⟨rfl, rfl, rfl, rfl, rfl, rfl, rfl, rfl, rfl, rfl, rfl, rfl⟩

/-- C5: on a metadata match the merge overwrites the labels
unconditionally, overwrites color and visibility only when the descriptor
value is still empty, merges additional_params key-by-key with sheet
entries winning, and a descriptor without a matching metadata entry is kept
unchanged. -/
theorem apply_metadata_merge_semantics (tf : TrackFile) (md : SampleMetadata)
    (fs : List (String × Json)) (hobj : md.additional_params = Json.obj fs)
    (hnd : (fs.map Prod.fst).Nodup) :
    (tf.apply_metadata md).map TrackFile.short_label = some md.short_label
    ∧ (tf.apply_metadata md).map TrackFile.long_label = some md.long_label
    ∧ (tf.apply_metadata md).map TrackFile.color
        = some (if tf.color = "" then md.color else tf.color)
    ∧ (tf.apply_metadata md).map TrackFile.visibility
        = some (if tf.visibility = "" then md.visibility else tf.visibility)
    ∧ (∀ k v, List.lookup k fs = some v →
        (tf.apply_metadata md).map (fun t => List.lookup k t.additional_params)
          = some (some v))
    ∧ (∀ k, List.lookup k fs = none →
        (tf.apply_metadata md).map (fun t => List.lookup k t.additional_params)
          = some (List.lookup k tf.additional_params))
    ∧ (∀ meta : List (String × SampleMetadata),
        List.lookup tf.sample_id meta = none → apply_one_metadata meta tf = some tf) := by
  refine ⟨?_, ?_, ?_, ?_, ?_, ?_, ?_⟩
  · simp [TrackFile.apply_metadata, hobj]
  · simp [TrackFile.apply_metadata, hobj]
  · simp only [TrackFile.apply_metadata, hobj, Option.map_some]
    by_cases hc : tf.color = "" <;> by_cases hm : md.color = "" <;> simp [hc, hm]
  · simp only [TrackFile.apply_metadata, hobj, Option.map_some]
    by_cases hc : tf.visibility = "" <;> by_cases hm : md.visibility = "" <;> simp [hc, hm]
  · intro k v hkv
    simp only [TrackFile.apply_metadata, hobj, Option.map_some', Option.some.injEq]
    exact lookup_foldl_dictInsert_of_lookup fs _ k v hnd hkv
  · intro k hk
    simp only [TrackFile.apply_metadata, hobj, Option.map_some', Option.some.injEq]
    exact lookup_foldl_dictInsert_of_notin fs _ k (lookup_eq_none_forall hk)
  · intro meta h
    simp [apply_one_metadata, h]

/-- C5 (witness): merging the sheet row for S1 into the descriptor of
S1_a.bw fills the empty color from the sheet and stores the sheet's
additional autoScale entry. -/
theorem apply_metadata_merge_semantics_witness :
    ((mkTrackFile "S1_a.bw" "bigwig" none none).apply_metadata
        (SampleMetadata.ofRow
          [("sample_id", "S1"), ("color", "1,2,3"),
           ("additional_params", "\x7b\"autoScale\": \"off\"\x7d")])).map TrackFile.color
      = some (if (mkTrackFile "S1_a.bw" "bigwig" none none).color = ""
              then (SampleMetadata.ofRow
                [("sample_id", "S1"), ("color", "1,2,3"),
                 ("additional_params", "\x7b\"autoScale\": \"off\"\x7d")]).color
              else (mkTrackFile "S1_a.bw" "bigwig" none none).color)
    ∧ ((mkTrackFile "S1_a.bw" "bigwig" none none).apply_metadata
        (SampleMetadata.ofRow
          [("sample_id", "S1"), ("color", "1,2,3"),
           ("additional_params", "\x7b\"autoScale\": \"off\"\x7d")])).map
          (fun t => List.lookup "autoScale" t.additional_params)
      = some (some (Json.str "off")) :=
  ⟨(apply_metadata_merge_semantics (mkTrackFile "S1_a.bw" "bigwig" none none)
      (SampleMetadata.ofRow
        [("sample_id", "S1"), ("color", "1,2,3"),
         ("additional_params", "\x7b\"autoScale\": \"off\"\x7d")])
      [("autoScale", Json.str "off")] rfl (by decide)).2.2.1,
   (apply_metadata_merge_semantics (mkTrackFile "S1_a.bw" "bigwig" none none)
      (SampleMetadata.ofRow
        [("sample_id", "S1"), ("color", "1,2,3"),
         ("additional_params", "\x7b\"autoScale\": \"off\"\x7d")])
      [("autoScale", Json.str "off")] rfl (by decide)).2.2.2.2.1
      "autoScale" (Json.str "off") rfl⟩

/-- C6: additional_params entries are applied last in get_track_params and
override every computed entry with the same key, and the signal-type
defaults autoScale and alwaysZero are injected (with value on) only for
keys absent from additional_params. -/
theorem get_track_params_additional_params_override (tf : TrackFile) (parent : Option Json)
    (ens : Bool) (hnd : (tf.additional_params.map Prod.fst).Nodup) :
    (∀ k v, List.lookup k tf.additional_params = some v →
      List.lookup k (tf.get_track_params parent ens).2 = some v)
    ∧ (tf.track_type = "bigwig" → List.lookup "autoScale" tf.additional_params = none →
      List.lookup "autoScale" (tf.get_track_params parent ens).2 = some (Json.str "on"))
    ∧ (tf.track_type = "bigwig" → List.lookup "alwaysZero" tf.additional_params = none →
      List.lookup "alwaysZero" (tf.get_track_params parent ens).2 = some (Json.str "on")) := by
  refine ⟨?_, ?_, ?_⟩
  · intro k v hkv
    exact lookup_foldl_dictInsert_of_lookup tf.additional_params _ k v hnd hkv
  · intro hw hz
    show List.lookup "autoScale"
      (tf.additional_params.foldl (fun acc kv => dictInsert acc kv.1 kv.2)
        (trackParamsWithEnsembl tf
          (trackParamsWithDefaults tf
            (trackParamsWithParent (trackParamsBase tf) parent)) ens)) = some (Json.str "on")
    rw [lookup_foldl_dictInsert_of_notin _ _ _ (lookup_eq_none_forall hz),
      lookup_trackParamsWithEnsembl_ne _ _ _ _ (by decide) (by decide)]
    exact lookup_trackParamsWithDefaults_autoScale tf _ hw
      (hasKey_eq_false_of_lookup_none hz)
  · intro hw hz
    show List.lookup "alwaysZero"
      (tf.additional_params.foldl (fun acc kv => dictInsert acc kv.1 kv.2)
        (trackParamsWithEnsembl tf
          (trackParamsWithDefaults tf
            (trackParamsWithParent (trackParamsBase tf) parent)) ens)) = some (Json.str "on")
    rw [lookup_foldl_dictInsert_of_notin _ _ _ (lookup_eq_none_forall hz),
      lookup_trackParamsWithEnsembl_ne _ _ _ _ (by decide) (by decide)]
    exact lookup_trackParamsWithDefaults_alwaysZero tf _ hw
      (hasKey_eq_false_of_lookup_none hz)

/-- C6 (witness): a signal descriptor carrying additional_params
autoScale=off (obtained by merging the sheet row) projects to
autoScale=off, while one without the key projects to the injected default
autoScale=on. -/
theorem get_track_params_additional_params_override_witness :
    List.lookup "autoScale"
      ((((mkTrackFile "S1_a.bw" "bigwig" none none).apply_metadata
          (SampleMetadata.ofRow
            [("sample_id", "S1"),
             ("additional_params", "\x7b\"autoScale\": \"off\"\x7d")])).getD
          (mkTrackFile "S1_a.bw" "bigwig" none none)).get_track_params none false).2
      = some (Json.str "off")
    ∧ List.lookup "autoScale"
        ((mkTrackFile "S1_a.bw" "bigwig" none none).get_track_params none false).2
      = some (Json.str "on") :=
  ⟨(get_track_params_additional_params_override _ none false (by decide)).1
      "autoScale" (Json.str "off") rfl,
   (get_track_params_additional_params_override
      (mkTrackFile "S1_a.bw" "bigwig" none none) none false (by decide)).2.1 rfl rfl⟩

/-- C7: at projection time an empty color and visibility are assigned the
kind defaults (0,0,100 and full for signal, 0,100,0 and pack for
annotation), non-empty values are left as-is, and unless overridden by an
additional_params entry the projected dict carries exactly the descriptor's
defaulted color and visibility. -/
theorem get_track_params_color_visibility_defaults (tf : TrackFile) (parent : Option Json)
    (ens : Bool) :
    (tf.color = "" → tf.track_type = "bigwig" →
      (tf.get_track_params parent ens).1.color = "0,0,100")
    ∧ (tf.color = "" → tf.track_type = "bigbed" →
      (tf.get_track_params parent ens).1.color = "0,100,0")
    ∧ (tf.visibility = "" → tf.track_type = "bigwig" →
      (tf.get_track_params parent ens).1.visibility = "full")
    ∧ (tf.visibility = "" → tf.track_type = "bigbed" →
      (tf.get_track_params parent ens).1.visibility = "pack")
    ∧ (tf.color ≠ "" → (tf.get_track_params parent ens).1.color = tf.color)
    ∧ (tf.visibility ≠ "" → (tf.get_track_params parent ens).1.visibility = tf.visibility)
    ∧ (List.lookup "color" tf.additional_params = none →
      List.lookup "color" (tf.get_track_params parent ens).2
        = some (Json.str (tf.get_track_params parent ens).1.color))
    ∧ (List.lookup "visibility" tf.additional_params = none →
      List.lookup "visibility" (tf.get_track_params parent ens).2
        = some (Json.str (tf.get_track_params parent ens).1.visibility)) := by
  refine ⟨?_, ?_, ?_, ?_, ?_, ?_, ?_, ?_⟩
  · intro hc hw
    show defaultedColor tf = "0,0,100"
    simp [defaultedColor, hc, hw]
  · intro hc hb
    show defaultedColor tf = "0,100,0"
    simp [defaultedColor, hc, hb]
  · intro hv hw
    show defaultedVisibility tf = "full"
    simp [defaultedVisibility, hv, hw]
  · intro hv hb
    show defaultedVisibility tf = "pack"
    simp [defaultedVisibility, hv, hb]
  · intro hc
    show defaultedColor tf = tf.color
    simp [defaultedColor, hc]
  · intro hv
    show defaultedVisibility tf = tf.visibility
    simp [defaultedVisibility, hv]
  · intro hk
    show List.lookup "color"
      (tf.additional_params.foldl (fun acc kv => dictInsert acc kv.1 kv.2)
        (trackParamsWithEnsembl tf
          (trackParamsWithDefaults tf
            (trackParamsWithParent (trackParamsBase tf) parent)) ens))
      = some (Json.str (defaultedColor tf))
    rw [lookup_foldl_dictInsert_of_notin _ _ _ (lookup_eq_none_forall hk),
      lookup_trackParamsWithEnsembl_ne _ _ _ _ (by decide) (by decide),
      lookup_trackParamsWithDefaults_ne _ _ _ (by decide) (by decide),
      lookup_trackParamsWithParent_ne _ _ _ (by decide)]
    exact lookup_trackParamsBase_color tf
  · intro hk
    show List.lookup "visibility"
      (tf.additional_params.foldl (fun acc kv => dictInsert acc kv.1 kv.2)
        (trackParamsWithEnsembl tf
          (trackParamsWithDefaults tf
            (trackParamsWithParent (trackParamsBase tf) parent)) ens))
      = some (Json.str (defaultedVisibility tf))
    rw [lookup_foldl_dictInsert_of_notin _ _ _ (lookup_eq_none_forall hk),
      lookup_trackParamsWithEnsembl_ne _ _ _ _ (by decide) (by decide),
      lookup_trackParamsWithDefaults_ne _ _ _ (by decide) (by decide),
      lookup_trackParamsWithParent_ne _ _ _ (by decide)]
    exact lookup_trackParamsBase_visibility tf

/-- C7 (witness): the signal descriptor of S1_a.bw with empty color and
visibility projects to color 0,0,100 and visibility full, both on the
descriptor and in the parameter dict; the annotation descriptor of
S1_a.bb projects to color 0,100,0 and visibility pack. -/
theorem get_track_params_color_visibility_defaults_witness :
    ((mkTrackFile "S1_a.bw" "bigwig" none none).get_track_params none false).1.color = "0,0,100"
    ∧ ((mkTrackFile "S1_a.bw" "bigwig" none none).get_track_params none false).1.visibility
        = "full"
    ∧ ((mkTrackFile "S1_a.bb" "bigbed" none none).get_track_params none false).1.color
        = "0,100,0"
    ∧ ((mkTrackFile "S1_a.bb" "bigbed" none none).get_track_params none false).1.visibility
        = "pack"
    ∧ List.lookup "color"
        ((mkTrackFile "S1_a.bw" "bigwig" none none).get_track_params none false).2
      = some (Json.str
          (((mkTrackFile "S1_a.bw" "bigwig" none none).get_track_params none false).1.color)) :=
  ⟨(get_track_params_color_visibility_defaults
      (mkTrackFile "S1_a.bw" "bigwig" none none) none false).1 rfl rfl,
   (get_track_params_color_visibility_defaults
      (mkTrackFile "S1_a.bw" "bigwig" none none) none false).2.2.1 rfl rfl,
   (get_track_params_color_visibility_defaults
      (mkTrackFile "S1_a.bb" "bigbed" none none) none false).2.1 rfl rfl,
   (get_track_params_color_visibility_defaults
      (mkTrackFile "S1_a.bb" "bigbed" none none) none false).2.2.2.1 rfl rfl,
   (get_track_params_color_visibility_defaults
      (mkTrackFile "S1_a.bw" "bigwig" none none) none false).2.2.2.2.2.2.1 rfl⟩
